import Mathlib

/-!
Verification of the mock OAuth2 server and smart-home webhook bridge
(src/app.py) against its natural-language specification.

The embedding below translates the Flask handlers into pure Lean
functions.  Python dictionaries become association lists over `String`
keys; `request.form.get(k)` becomes an `Option String` field (absent
field = `none`); the random token generator `secrets.token_urlsafe` is
an oracle whose output is passed in as an explicit argument; wall-clock
`time.time()` becomes an `Int` argument (seconds; every comparison in the code is of a time difference against the 10-second interval, so integer-valued clocks cover the claims); the outbound HTTP call in
`trigger_jenkins` becomes a `Bool` oracle argument (`true` iff the
external endpoint answered with status 200 within the timeout).
-/

/-- Python `dict` lookup `d.get(key)` on a string-keyed dict,
modelled on an association list (first binding wins; inserts below
always remove older bindings first). -/
def dictGet {α : Type} : List (String × α) → String → Option α
  | [], _ => none
  | (k, v) :: rest, key => if k = key then some v else dictGet rest key

/-- Removal of every binding of `key`; observably `del d[key]`. -/
def dictRemove {α : Type} : List (String × α) → String → List (String × α)
  | [], _ => []
  | (k, v) :: rest, key =>
    if k = key then dictRemove rest key else (k, v) :: dictRemove rest key

/-- Python `d[key] = v`: overwrite-or-add. -/
def dictInsert {α : Type} (d : List (String × α)) (key : String) (v : α) :
    List (String × α) :=
  (key, v) :: dictRemove d key

/-- Python `d.pop(key, None)` where `key` itself may be `None`
(`request.form.get` result): returns the removed value (or `none`)
together with the remaining dict.  `None` is never a key of the
string-keyed stores, so a `none` key removes nothing. -/
def dictPop {α : Type} (d : List (String × α)) (key : Option String) :
    Option α × List (String × α) :=
  match key with
  | none => (none, d)
  | some k => (dictGet d k, dictRemove d k)

theorem dictGet_dictRemove {α : Type} (d : List (String × α)) (key key2 : String) :
    dictGet (dictRemove d key) key2 =
      if key = key2 then none else dictGet d key2 := by
  induction d with
  | nil => simp [dictRemove, dictGet]
  | cons hd tl ih =>
    obtain ⟨k, v⟩ := hd
    by_cases hk : k = key
    · subst hk
      simp only [dictRemove, if_pos rfl, dictGet]
      by_cases h2 : k = key2
      · subst h2; simp [ih]
      · simp [h2, ih]
    · simp only [dictRemove, if_neg hk, dictGet]
      by_cases h2 : k = key2
      · subst h2
        have hne : key ≠ k := fun h => hk h.symm
        simp [hne]
      · simp [h2, ih]

theorem dictGet_dictInsert {α : Type} (d : List (String × α)) (key key2 : String) (v : α) :
    dictGet (dictInsert d key v) key2 =
      if key = key2 then some v else dictGet d key2 := by
  simp only [dictInsert, dictGet, dictGet_dictRemove]
  by_cases h : key = key2 <;> simp [h]

theorem dictGet_dictRemove_self {α : Type} (d : List (String × α)) (key : String) :
    dictGet (dictRemove d key) key = none := by
  simp [dictGet_dictRemove]

/-! ## OAuth2 grant state (src/app.py lines 29, 41)

`auth_codes : code -> (client_id, redirect_uri)` — both components are
whatever `request.form.get(...)` returned on the `/authorize` POST, so
either may be absent (`None`).
`access_tokens`/`refresh_tokens : token -> client_id` likewise store a
possibly-absent client id. -/
structure Stores where
  auth_codes : List (String × (Option String × Option String))
  access_tokens : List (String × Option String)
  refresh_tokens : List (String × Option String)
deriving DecidableEq

/-- Modelled from the spec: `VALID_CLIENTS` is referenced in
src/app.py (lines 63, 89, 115) but its definition is not under src/;
§2 of the spec describes it as a static mapping of client identifier
to client secret, so it is modelled as a string-to-string association
list supplied as a parameter. -/
abbrev Clients : Type := List (String × String)

/-- `VALID_CLIENTS.get(client_id)` where `client_id` is a form field
(possibly `None`; `dict.get(None)` returns `None`). -/
def clientsGet (clients : Clients) (client_id : Option String) : Option String :=
  client_id.bind (fun k => dictGet clients k)

/-- `refresh_tokens.get(refresh_token)` (line 118): the key may be
`None`, and a stored `None` client id is indistinguishable from a
missing key, exactly as in Python. -/
def refreshGet (d : List (String × Option String)) (key : Option String) :
    Option String :=
  match key with
  | none => none
  | some k => (dictGet d k).join

/-- The form fields read by the `/token` handler (lines 81–87, 111–113),
each `request.form.get(...)`, hence optional. -/
structure TokenForm where
  grant_type : Option String
  code : Option String
  redirect_uri : Option String
  client_id : Option String
  client_secret : Option String
  refresh_token : Option String
deriving DecidableEq

/-- JSON bodies the `/token` handler can answer with.  `success`
carries the minted access token, the `token_type`, `expires_in`, and
the `refresh_token` field when present (code exchange) or `none` when
the response has no such field (refresh exchange). -/
inductive TokenResp where
  | success (access_token : String) (token_type : String)
      (expires_in : Nat) (refresh_token : Option String)
  | invalid_client
  | invalid_grant
  | unsupported_grant_type
deriving DecidableEq

/-- HTTP status attached to each `/token` response (lines 90, 94, 103,
116, 119, 125, 131). -/
def httpStatus : TokenResp → Nat
  | .success _ _ _ _ => 200
  | .invalid_client => 401
  | .invalid_grant => 400
  | .unsupported_grant_type => 400

/-- The `/token` handler (src/app.py lines 79–131).  `freshAccess` and
`freshRefresh` are the strings the two `secrets.token_urlsafe` calls of
the taken branch would produce.  Returns the response together with the
updated stores (the `save_tokens_to_file` persistence call is an
external side effect outside this model). -/
def token (VALID_CLIENTS : Clients) (freshAccess freshRefresh : String)
    (form : TokenForm) (s : Stores) : TokenResp × Stores :=
  if form.grant_type = some "authorization_code" then
    if clientsGet VALID_CLIENTS form.client_id ≠ form.client_secret then
      (TokenResp.invalid_client, s)
    else
      let popped := dictPop s.auth_codes form.code
      let s1 : Stores := { s with auth_codes := popped.2 }
      match popped.1 with
      | none => (TokenResp.invalid_grant, s1)
      | some stored =>
        if stored.1 ≠ form.client_id ∨ stored.2 ≠ form.redirect_uri then
          (TokenResp.invalid_grant, s1)
        else
          (TokenResp.success freshAccess "Bearer" 3600 (some freshRefresh),
           { auth_codes := popped.2,
             access_tokens := dictInsert s.access_tokens freshAccess form.client_id,
             refresh_tokens := dictInsert s.refresh_tokens freshRefresh form.client_id })
  else if form.grant_type = some "refresh_token" then
    if clientsGet VALID_CLIENTS form.client_id ≠ form.client_secret then
      (TokenResp.invalid_client, s)
    else if refreshGet s.refresh_tokens form.refresh_token ≠ form.client_id then
      (TokenResp.invalid_grant, s)
    else
      (TokenResp.success freshAccess "Bearer" 3600 none,
       { s with access_tokens := dictInsert s.access_tokens freshAccess form.client_id })
  else
    (TokenResp.unsupported_grant_type, s)

/-- The `/authorize` POST branch (src/app.py lines 67–77).  `code` is
the oracle output of `secrets.token_urlsafe(8)`.  The code is stored
keyed to the supplied `(client_id, redirect_uri)` pair (line 74) before
the redirect string is built; a missing `redirect_uri` makes line 76
raise `TypeError` after the store already happened, modelled by
`Except.error` carrying the mutated ledger. -/
def authorize_post (code : String) (client_id : Option String)
    (redirect_uri : Option String) (state : Option String)
    (auth_codes : List (String × (Option String × Option String))) :
    Except (List (String × (Option String × Option String)))
      (String × List (String × (Option String × Option String))) :=
  let codes2 := dictInsert auth_codes code (client_id, redirect_uri)
  match redirect_uri with
  | none => Except.error codes2
  | some uri =>
    let separator := if uri.contains '?' then "&" else "?"
    Except.ok (uri ++ separator ++ "code=" ++ code ++ "&state=" ++ state.getD "",
               codes2)

/-! ## Jenkins webhook bridge (src/app.py lines 134–225) -/

/-- `MIN_INTERVAL = 10` seconds (line 34). -/
def MIN_INTERVAL : Int := 10

/-- `trigger_jenkins(action)` (lines 138–159) as a pure step on the
process-wide `last_trigger_time`.  `now` is the value `time.time()`
returns at this call; `externalOk` is `true` iff the `requests.post`
to the webhook would return status 200 within the timeout (on any
exception or non-200 status the function returns `False`).  When the
cooldown suppresses the call, `last_trigger_time` is untouched and no
external request happens; otherwise `last_trigger_time` is set to `now`
before the external request, and stays `now` whatever that request
does.  Returns (result, new last_trigger_time). -/
def trigger_jenkins (action : String) (now : Int) (externalOk : Bool)
    (last_trigger_time : Int) : Bool × Int :=
  if now - last_trigger_time < MIN_INTERVAL then
    (false, last_trigger_time)
  else
    (externalOk, now)

/-- The cooldown gate lets the external actuation call through:
the condition of line 142 fails. -/
def madeCall (now last_trigger_time : Int) : Prop :=
  ¬ now - last_trigger_time < MIN_INTERVAL

instance (now last : Int) : Decidable (madeCall now last) := by
  unfold madeCall; infer_instance

/-- Order of the lock/network events inside `trigger_jenkins`.  The
whole body of the function, the `requests.post` call included, is the
body of `with execution_lock:` (lines 140–159), so the release happens
only when the function returns. -/
inductive TriggerEvent where
  | lockAcquire
  | cooldownCheck
  | updateLastTime
  | externalCall
  | lockRelease
deriving DecidableEq

/-- Event trace of one `trigger_jenkins` run (lines 140–159):
acquire the lock (line 140), compare `now - last_trigger_time` against
`MIN_INTERVAL` (line 142); on suppression return `False` from inside
the `with` block (release on exit); otherwise assign
`last_trigger_time` (line 146), perform `requests.post` (line 154)
still inside the `with` block, and release on return. -/
def trigger_jenkins_events (suppressed : Bool) : List TriggerEvent :=
  if suppressed then
    [TriggerEvent.lockAcquire, TriggerEvent.cooldownCheck, TriggerEvent.lockRelease]
  else
    [TriggerEvent.lockAcquire, TriggerEvent.cooldownCheck,
     TriggerEvent.updateLastTime, TriggerEvent.externalCall,
     TriggerEvent.lockRelease]

/-- `device_states = {'jenkins_job': False}` (line 136). -/
def initial_device_states : List (String × Bool) := [("jenkins_job", false)]

/-- Mutable state touched by the EXECUTE path: the device table and the
debouncer timestamp. -/
structure ExecState where
  device_states : List (String × Bool)
  last_trigger_time : Int
deriving DecidableEq

/-- One per-device result object appended to `results`
(lines 209–216).  `on_val` is the JSON field `states.on` (the word
`on` itself is a reserved notation here). -/
structure DeviceResult where
  ids : List String
  status : String
  on_val : Bool
  online : Bool
deriving DecidableEq

/-- Body of the inner EXECUTE loop for one targeted device
(lines 204–216): store the requested `on` value in `device_states`
unconditionally, then call `trigger_jenkins` with `'apply'` when
turning on and `'destroy'` otherwise, and report `SUCCESS` exactly when
that call returned `True`; the reported state echoes the requested
value. -/
def execStep (did : String) (onoff : Bool) (now : Int) (externalOk : Bool)
    (st : ExecState) : DeviceResult × ExecState :=
  let ds2 := dictInsert st.device_states did onoff
  let trig := trigger_jenkins (if onoff then "apply" else "destroy")
      now externalOk st.last_trigger_time
  ({ ids := [did],
     status := if trig.1 then "SUCCESS" else "ERROR",
     on_val := onoff, online := true },
   { device_states := ds2, last_trigger_time := trig.2 })

/-- One command object of `data['inputs'][0]['payload']['commands']`:
its device list and `execution[0]['params'].get('on', False)` — `none`
when the `on` parameter is absent (line 206 defaults it to `False`). -/
structure ExecCmd where
  devices : List String
  on_param : Option Bool
deriving DecidableEq

/-- The nested `for cmd ... for dev ...` loops (lines 202–203)
flattened to (device id, requested boolean) pairs, applying the
`params.get('on', False)` default of line 206. -/
def flatten_commands (cmds : List ExecCmd) : List (String × Bool) :=
  cmds.flatMap (fun c => c.devices.map (fun d => (d, c.on_param.getD false)))

/-- The whole EXECUTE branch (lines 200–220) over the flattened device
list.  `env` supplies, per `trigger_jenkins` invocation, the wall-clock
time and the external-endpoint outcome. -/
def execute_handler : List (String × Bool) → List (Int × Bool) → ExecState →
    List DeviceResult × ExecState
  | [], _, st => ([], st)
  | _ :: _, [], st => ([], st)
  | (did, onoff) :: rest, (now, ok) :: env, st =>
    let step := execStep did onoff now ok st
    let tail := execute_handler rest env step.2
    (step.1 :: tail.1, tail.2)

/-- The QUERY branch (lines 188–198): builds `resp_devices` by
inserting, for each requested id, `{'online': True, 'on':
device_states.get(did, False)}`; the device table itself is returned
untouched (the branch only reads it). -/
def query_handler (device_states : List (String × Bool)) (ids : List String) :
    List (String × (Bool × Bool)) × List (String × Bool) :=
  (ids.foldl
    (fun acc did => dictInsert acc did (true, (dictGet device_states did).getD false))
    [],
   device_states)

/-! ## Claim theorems -/

/-- Claim C1: for every authorization code issued, a first exchange
presenting that code with the stored client_id and redirect_uri and a
correct client secret succeeds; any subsequent exchange presenting the
same code (with a passing client check) fails with `invalid_grant`
(HTTP 400), because the code is popped from the ledger on first
consumption. -/
theorem C1_authorization_code_single_use
    (R : Clients) (fa fr fa2 fr2 : String) (f f2 : TokenForm) (s : Stores)
    (c : String) (cid ruri : Option String)
    (hstored : dictGet s.auth_codes c = some (cid, ruri))
    (hgt : f.grant_type = some "authorization_code")
    (hcode : f.code = some c)
    (hcid : f.client_id = cid)
    (huri : f.redirect_uri = ruri)
    (hsec : clientsGet R f.client_id = f.client_secret)
    (hgt2 : f2.grant_type = some "authorization_code")
    (hcode2 : f2.code = some c)
    (hsec2 : clientsGet R f2.client_id = f2.client_secret) :
    (token R fa fr f s).1 = TokenResp.success fa "Bearer" 3600 (some fr) ∧
    dictGet (token R fa fr f s).2.auth_codes c = none ∧
    (token R fa2 fr2 f2 (token R fa fr f s).2).1 = TokenResp.invalid_grant ∧
    httpStatus (token R fa2 fr2 f2 (token R fa fr f s).2).1 = 400 := by
  subst hcid; subst huri
  have hrun : token R fa fr f s =
      (TokenResp.success fa "Bearer" 3600 (some fr),
       { auth_codes := dictRemove s.auth_codes c,
         access_tokens := dictInsert s.access_tokens fa f.client_id,
         refresh_tokens := dictInsert s.refresh_tokens fr f.client_id }) := by
    simp [token, hgt, hsec, hcode, dictPop, hstored]
  have hgone : dictGet (token R fa fr f s).2.auth_codes c = none := by
    rw [hrun]; exact dictGet_dictRemove_self s.auth_codes c
  have hsecond : (token R fa2 fr2 f2 (token R fa fr f s).2).1 =
      TokenResp.invalid_grant := by
    rw [hrun]
    simp [token, hgt2, hsec2, hcode2, dictPop, dictGet_dictRemove_self]
  refine ⟨by rw [hrun], hgone, hsecond, by rw [hsecond]; rfl⟩

def regW : Clients := [("google", "shh")]

def storesW : Stores := ⟨[("abc", (some "google", some "cb"))], [], []⟩

def formW : TokenForm :=
  ⟨some "authorization_code", some "abc", some "cb", some "google", some "shh", none⟩

theorem C1_authorization_code_single_use_witness :
    (token regW "A1" "R1" formW storesW).1 =
      TokenResp.success "A1" "Bearer" 3600 (some "R1") ∧
    dictGet (token regW "A1" "R1" formW storesW).2.auth_codes "abc" = none ∧
    (token regW "A2" "R2" formW (token regW "A1" "R1" formW storesW).2).1 =
      TokenResp.invalid_grant ∧
    httpStatus (token regW "A2" "R2" formW (token regW "A1" "R1" formW storesW).2).1 =
      400 :=
  C1_authorization_code_single_use regW "A1" "R1" "A2" "R2" formW formW storesW
    "abc" (some "google") (some "cb")
    (by decide) rfl rfl rfl rfl (by decide) rfl rfl (by decide)

/-- Claim C2 counterexample: with client_id `"evil"` absent from the
registry and client_secret absent from the request, the client check of
line 89 compares `None` with `None` and passes, so the request does NOT
fail `invalid_client`: a token is minted for the unknown client (the
matching authorization code is obtainable because `/authorize` POST
stores codes for arbitrary client ids, see claim C10). -/
theorem C2_counterexample :
    dictGet regW "evil" = none ∧
    (token regW "at1" "rt1"
        ⟨some "authorization_code", some "abc", some "cb", some "evil", none, none⟩
        ⟨[("abc", (some "evil", some "cb"))], [], []⟩).1 =
      TokenResp.success "at1" "Bearer" 3600 (some "rt1") ∧
    dictGet (token regW "at1" "rt1"
        ⟨some "authorization_code", some "abc", some "cb", some "evil", none, none⟩
        ⟨[("abc", (some "evil", some "cb"))], [], []⟩).2.access_tokens "at1" =
      some (some "evil") := by
  refine ⟨by decide, by decide, by decide⟩

/-- Claim C2 (amended): for every /token request with grant_type
`authorization_code` or `refresh_token`, whenever the Credential
Registry lookup of the supplied client_id (absent when the client_id is
unknown or missing) differs from the supplied client_secret (absent
when missing), the operation fails `invalid_client` (HTTP 401) and the
stores are unchanged, so no token is minted.  In particular an unknown
client_id with a client_secret present fails `invalid_client`; an
unknown client_id with the client_secret also absent passes the check
instead (both sides of the comparison are absent). -/
theorem C2_amended_invalid_client
    (R : Clients) (fa fr : String) (f : TokenForm) (s : Stores)
    (hgt : f.grant_type = some "authorization_code" ∨
      f.grant_type = some "refresh_token")
    (hmm : clientsGet R f.client_id ≠ f.client_secret) :
    token R fa fr f s = (TokenResp.invalid_client, s) ∧
    httpStatus (token R fa fr f s).1 = 401 := by
  rcases hgt with h | h
  · have : token R fa fr f s = (TokenResp.invalid_client, s) := by
      simp [token, h, hmm]
    exact ⟨this, by rw [this]; rfl⟩
  · have hne : f.grant_type ≠ some "authorization_code" := by
      rw [h]; decide
    have : token R fa fr f s = (TokenResp.invalid_client, s) := by
      simp [token, h, hne, hmm]
    exact ⟨this, by rw [this]; rfl⟩

theorem C2_amended_invalid_client_witness :
    token regW "A1" "R1"
        ⟨some "authorization_code", some "abc", some "cb", some "evil", some "x", none⟩
        storesW =
      (TokenResp.invalid_client, storesW) ∧
    httpStatus (token regW "A1" "R1"
        ⟨some "authorization_code", some "abc", some "cb", some "evil", some "x", none⟩
        storesW).1 = 401 :=
  C2_amended_invalid_client regW "A1" "R1"
    ⟨some "authorization_code", some "abc", some "cb", some "evil", some "x", none⟩
    storesW (Or.inl rfl) (by decide)

/-- Claim C9: a mismatched exchange attempt is not atomic: when the
first exchange fails `invalid_grant` because the stored client_id or
redirect_uri does not match the request, the code has already been
popped from the ledger, so a later exchange of the same code even with
the originally matching client_id and redirect_uri also fails
`invalid_grant`. -/
theorem C9_mismatched_exchange_destroys_code
    (R : Clients) (fa fr fa2 fr2 : String) (f1 f2 : TokenForm) (s : Stores)
    (c : String) (cid ruri : Option String)
    (hstored : dictGet s.auth_codes c = some (cid, ruri))
    (hgt1 : f1.grant_type = some "authorization_code")
    (hcode1 : f1.code = some c)
    (hsec1 : clientsGet R f1.client_id = f1.client_secret)
    (hmm : f1.client_id ≠ cid ∨ f1.redirect_uri ≠ ruri)
    (hgt2 : f2.grant_type = some "authorization_code")
    (hcode2 : f2.code = some c)
    (hcid2 : f2.client_id = cid)
    (huri2 : f2.redirect_uri = ruri)
    (hsec2 : clientsGet R f2.client_id = f2.client_secret) :
    (token R fa fr f1 s).1 = TokenResp.invalid_grant ∧
    dictGet (token R fa fr f1 s).2.auth_codes c = none ∧
    (token R fa2 fr2 f2 (token R fa fr f1 s).2).1 = TokenResp.invalid_grant := by
  have hmm2 : cid ≠ f1.client_id ∨ ruri ≠ f1.redirect_uri := by
    rcases hmm with h | h
    · exact Or.inl (fun he => h he.symm)
    · exact Or.inr (fun he => h he.symm)
  have hrun : token R fa fr f1 s =
      (TokenResp.invalid_grant, { s with auth_codes := dictRemove s.auth_codes c }) := by
    simp [token, hgt1, hsec1, hcode1, dictPop, hstored, hmm2]
  have hsecond : (token R fa2 fr2 f2 (token R fa fr f1 s).2).1 =
      TokenResp.invalid_grant := by
    rw [hrun]
    simp [token, hgt2, hsec2, hcode2, dictPop, dictGet_dictRemove_self]
  refine ⟨by rw [hrun], by rw [hrun]; exact dictGet_dictRemove_self s.auth_codes c, hsecond⟩

theorem C9_mismatched_exchange_destroys_code_witness :
    (token regW "A1" "R1"
        ⟨some "authorization_code", some "abc", some "other", some "google", some "shh", none⟩
        storesW).1 = TokenResp.invalid_grant ∧
    dictGet (token regW "A1" "R1"
        ⟨some "authorization_code", some "abc", some "other", some "google", some "shh", none⟩
        storesW).2.auth_codes "abc" = none ∧
    (token regW "A2" "R2" formW
        (token regW "A1" "R1"
          ⟨some "authorization_code", some "abc", some "other", some "google", some "shh", none⟩
          storesW).2).1 = TokenResp.invalid_grant :=
  C9_mismatched_exchange_destroys_code regW "A1" "R1" "A2" "R2"
    ⟨some "authorization_code", some "abc", some "other", some "google", some "shh", none⟩
    formW storesW "abc" (some "google") (some "cb")
    (by decide) rfl rfl (by decide) (Or.inr (by decide)) rfl rfl rfl rfl (by decide)

/-- Claim C5: a refresh exchange with a refresh token bound to the
authenticated client mints and stores a new access token for that
client, leaves the refresh-token store (and the code ledger) unchanged
— so the same refresh token immediately supports a further refresh —
and answers {access_token, token_type="Bearer", expires_in=3600} with
no refresh_token field. -/
theorem C5_refresh_frame_effect
    (R : Clients) (fa fr fa2 fr2 : String) (f : TokenForm) (s : Stores) (rt : String)
    (hgt : f.grant_type = some "refresh_token")
    (hsec : clientsGet R f.client_id = f.client_secret)
    (hrt : f.refresh_token = some rt)
    (hbound : dictGet s.refresh_tokens rt = some f.client_id) :
    (token R fa fr f s).1 = TokenResp.success fa "Bearer" 3600 none ∧
    (token R fa fr f s).2.refresh_tokens = s.refresh_tokens ∧
    (token R fa fr f s).2.auth_codes = s.auth_codes ∧
    (token R fa fr f s).2.access_tokens = dictInsert s.access_tokens fa f.client_id ∧
    dictGet (token R fa fr f s).2.access_tokens fa = some f.client_id ∧
    (token R fa2 fr2 f (token R fa fr f s).2).1 =
      TokenResp.success fa2 "Bearer" 3600 none := by
  have hne : f.grant_type ≠ some "authorization_code" := by
    rw [hgt]; decide
  have hget : refreshGet s.refresh_tokens f.refresh_token = f.client_id := by
    simp [refreshGet, hrt, hbound]
  have hrun : token R fa fr f s =
      (TokenResp.success fa "Bearer" 3600 none,
       { s with access_tokens := dictInsert s.access_tokens fa f.client_id }) := by
    simp [token, hgt, hne, hsec, hget]
  have hsecond : (token R fa2 fr2 f (token R fa fr f s).2).1 =
      TokenResp.success fa2 "Bearer" 3600 none := by
    rw [hrun]
    simp [token, hgt, hne, hsec, refreshGet, hrt, hbound]
  refine ⟨by rw [hrun], by rw [hrun], by rw [hrun], by rw [hrun], ?_, hsecond⟩
  rw [hrun]
  simp [dictGet_dictInsert]

def storesR : Stores := ⟨[], [], [("RT", some "google")]⟩

def formR : TokenForm :=
  ⟨some "refresh_token", none, none, some "google", some "shh", some "RT"⟩

theorem C5_refresh_frame_effect_witness :
    (token regW "A1" "R1" formR storesR).1 =
      TokenResp.success "A1" "Bearer" 3600 none ∧
    (token regW "A1" "R1" formR storesR).2.refresh_tokens = storesR.refresh_tokens ∧
    (token regW "A1" "R1" formR storesR).2.auth_codes = storesR.auth_codes ∧
    (token regW "A1" "R1" formR storesR).2.access_tokens =
      dictInsert storesR.access_tokens "A1" formR.client_id ∧
    dictGet (token regW "A1" "R1" formR storesR).2.access_tokens "A1" =
      some formR.client_id ∧
    (token regW "A2" "R2" formR (token regW "A1" "R1" formR storesR).2).1 =
      TokenResp.success "A2" "Bearer" 3600 none :=
  C5_refresh_frame_effect regW "A1" "R1" "A2" "R2" formR storesR "RT"
    rfl (by decide) rfl (by decide)

/-- Claim C6 counterexample: the code never checks the freshly
generated token string against the Token Store; if
`secrets.token_urlsafe(16)` returns a string already stored (here
`"t"`), the exchange still succeeds and returns that very string, so
the returned access_token IS previously present in the store. -/
theorem C6_counterexample :
    dictGet
        (⟨[("abc", (some "google", some "cb"))], [("t", some "google")], []⟩ :
          Stores).access_tokens "t" = some (some "google") ∧
    (token regW "t" "rt1" formW
        ⟨[("abc", (some "google", some "cb"))], [("t", some "google")], []⟩).1 =
      TokenResp.success "t" "Bearer" 3600 (some "rt1") := by
  refine ⟨by decide, by decide⟩

/-- Claim C6 (amended): for every successful token exchange (code
exchange or refresh), provided the freshly generated access-token
string is not already present in the Token Store, the returned
access_token is distinct from every access token previously present;
the code itself performs no collision check, so the proviso on the
generator is necessary. -/
theorem C6_amended_access_token_fresh
    (R : Clients) (fa fr tok tt : String) (ei : Nat) (ort : Option String)
    (f : TokenForm) (s s2 : Stores)
    (hfresh : dictGet s.access_tokens fa = none)
    (hrun : token R fa fr f s = (TokenResp.success tok tt ei ort, s2)) :
    dictGet s.access_tokens tok = none ∧
    dictGet s2.access_tokens tok = some f.client_id := by
  by_cases h1 : f.grant_type = some "authorization_code"
  · by_cases h2 : clientsGet R f.client_id = f.client_secret
    · rcases hpop : (dictPop s.auth_codes f.code).1 with _ | stored
      · simp [token, h1, h2, hpop] at hrun
      · by_cases h3 : stored.1 ≠ f.client_id ∨ stored.2 ≠ f.redirect_uri
        · simp [token, h1, h2, hpop, h3] at hrun
        · simp [token, h1, h2, hpop, h3] at hrun
          obtain ⟨⟨h4, -, -, -⟩, h5⟩ := hrun
          subst h4
          refine ⟨hfresh, ?_⟩
          rw [← h5]
          simp [dictGet_dictInsert]
    · simp [token, h1, h2] at hrun
  · by_cases hr : f.grant_type = some "refresh_token"
    · by_cases h2 : clientsGet R f.client_id = f.client_secret
      · by_cases h3 : refreshGet s.refresh_tokens f.refresh_token = f.client_id
        · simp [token, h1, hr, h2, h3] at hrun
          obtain ⟨⟨h4, -, -, -⟩, h5⟩ := hrun
          subst h4
          refine ⟨hfresh, ?_⟩
          rw [← h5]
          simp [dictGet_dictInsert]
        · simp [token, h1, hr, h2, h3] at hrun
      · simp [token, h1, hr, h2] at hrun
    · simp [token, h1, hr] at hrun

theorem C6_amended_access_token_fresh_witness :
    dictGet storesW.access_tokens "A1" = none ∧
    dictGet (⟨[], [("A1", some "google")], [("R1", some "google")]⟩ :
        Stores).access_tokens "A1" = some (some "google") :=
  C6_amended_access_token_fresh regW "A1" "R1" "A1" "Bearer" 3600 (some "R1")
    formW storesW ⟨[], [("A1", some "google")], [("R1", some "google")]⟩
    (by decide) (by decide)

/-- Claim C3 counterexample: two `trigger_jenkins` calls spaced exactly
10 seconds apart (at times 105 and 115) are NOT both forwarded when an
earlier successful trigger (at time 100, reachable from the initial
`last_trigger_time = 0`) put the gate in cooldown: the call at 105 is
suppressed (returns false although the external endpoint would have
answered 200), refuting "calls spaced at least 10 seconds apart are
both forwarded". -/
theorem C3_counterexample :
    (trigger_jenkins "apply" 100 true 0).1 = true ∧
    (trigger_jenkins "apply" 100 true 0).2 = 100 ∧
    (10 : Int) ≤ 115 - 105 ∧
    (trigger_jenkins "destroy" 105 true (trigger_jenkins "apply" 100 true 0).2).1 =
      false ∧
    (trigger_jenkins "destroy" 105 true (trigger_jenkins "apply" 100 true 0).2).2 =
      100 ∧
    (trigger_jenkins "apply" 115 true
        (trigger_jenkins "destroy" 105 true (trigger_jenkins "apply" 100 true 0).2).2).1 =
      true := by
  refine ⟨by decide, by decide, by decide, by decide, by decide, by decide⟩

/-- Claim C3 (amended): for every pair of `trigger_jenkins` calls whose
invocation times differ by less than the 10-second minimum interval, at
most one passes the cooldown gate and performs the external actuation
call; the suppressed call returns false and leaves `last_trigger_time`
unchanged, and at the EXECUTE level it produces per-device status ERROR
with the device state still updated to the requested value.  Calls
spaced at least 10 seconds apart are both forwarded PROVIDED the
earlier of the two itself starts at least 10 seconds after the last
successful trigger (without that proviso the earlier call can be
suppressed by a preceding trigger, as the counterexample shows). -/
theorem C3_amended_debounce
    (a1 a2 : String) (ok1 ok2 : Bool) (t1 t2 last : Int)
    (did : String) (onoff : Bool) (st : ExecState) (now : Int) (ok : Bool) :
    (t2 - t1 < MIN_INTERVAL →
      ¬ (madeCall t1 last ∧ madeCall t2 (trigger_jenkins a1 t1 ok1 last).2)) ∧
    (t2 - t1 < MIN_INTERVAL → madeCall t1 last →
      trigger_jenkins a2 t2 ok2 (trigger_jenkins a1 t1 ok1 last).2 = (false, t1)) ∧
    (now - st.last_trigger_time < MIN_INTERVAL →
      execStep did onoff now ok st =
        ({ ids := [did], status := "ERROR", on_val := onoff, online := true },
         { device_states := dictInsert st.device_states did onoff,
           last_trigger_time := st.last_trigger_time })) ∧
    (MIN_INTERVAL ≤ t1 - last → MIN_INTERVAL ≤ t2 - t1 →
      madeCall t1 last ∧ madeCall t2 (trigger_jenkins a1 t1 ok1 last).2) := by
  refine ⟨?_, ?_, ?_, ?_⟩
  · rintro h ⟨m1, m2⟩
    have hsnd : (trigger_jenkins a1 t1 ok1 last).2 = t1 := by
      unfold madeCall at m1
      simp [trigger_jenkins, if_neg m1]
    rw [hsnd] at m2
    exact m2 h
  · intro h m1
    have hsnd : (trigger_jenkins a1 t1 ok1 last).2 = t1 := by
      unfold madeCall at m1
      simp [trigger_jenkins, if_neg m1]
    rw [hsnd]
    simp [trigger_jenkins, if_pos h]
  · intro h
    simp [execStep, trigger_jenkins, if_pos h]
  · intro h1 h2
    have m1 : madeCall t1 last := by
      simp only [madeCall, MIN_INTERVAL] at h1 ⊢; omega
    have hsnd : (trigger_jenkins a1 t1 ok1 last).2 = t1 := by
      unfold madeCall at m1
      simp [trigger_jenkins, if_neg m1]
    refine ⟨m1, ?_⟩
    rw [hsnd]
    simp only [madeCall, MIN_INTERVAL] at h2 ⊢
    omega

theorem C3_amended_debounce_witness :
    ¬ (madeCall 5 0 ∧ madeCall 9 (trigger_jenkins "apply" 5 true 0).2) ∧
    trigger_jenkins "destroy" 25 true (trigger_jenkins "apply" 20 true 0).2 =
      (false, 20) ∧
    execStep "jenkins_job" true 5 true ⟨[("jenkins_job", false)], 0⟩ =
      ({ ids := ["jenkins_job"], status := "ERROR", on_val := true, online := true },
       { device_states := dictInsert [("jenkins_job", false)] "jenkins_job" true,
         last_trigger_time := 0 }) ∧
    (madeCall 20 0 ∧ madeCall 30 (trigger_jenkins "apply" 20 true 0).2) :=
  ⟨(C3_amended_debounce "apply" "x" true true 5 9 0 "d" true ⟨[], 0⟩ 0 true).1
      (by decide),
   (C3_amended_debounce "apply" "destroy" true true 20 25 0 "d" true ⟨[], 0⟩ 0 true).2.1
      (by decide) (by decide),
   (C3_amended_debounce "apply" "x" true true 0 0 0 "jenkins_job" true
      ⟨[("jenkins_job", false)], 0⟩ 5 true).2.2.1 (by decide),
   (C3_amended_debounce "apply" "x" true true 20 30 0 "d" true ⟨[], 0⟩ 0 true).2.2.2
      (by decide) (by decide)⟩

/-- Claim C4: every EXECUTE command sets the targeted device's state to
the requested boolean (default false when the `on` parameter is absent)
unconditionally — the stored state does not depend on the cooldown
outcome or on the external call's result — and the per-device result
echoes that requested value with status SUCCESS exactly when the
debounced external call was made and returned a success response. -/
theorem C4_execute_optimistic_state
    (did : String) (onoff : Bool) (now : Int) (externalOk : Bool)
    (st : ExecState) (devs : List String) :
    (execStep did onoff now externalOk st).2.device_states =
      dictInsert st.device_states did onoff ∧
    dictGet (execStep did onoff now externalOk st).2.device_states did = some onoff ∧
    (execStep did onoff now externalOk st).1.on_val = onoff ∧
    (execStep did onoff now externalOk st).1.online = true ∧
    (execStep did onoff now externalOk st).1.ids = [did] ∧
    ((execStep did onoff now externalOk st).1.status = "SUCCESS" ↔
      (madeCall now st.last_trigger_time ∧ externalOk = true)) ∧
    flatten_commands [⟨devs, none⟩] = devs.map (fun d => (d, false)) := by
  refine ⟨rfl, by simp [execStep, dictGet_dictInsert], rfl, rfl, rfl, ?_, ?_⟩
  · unfold execStep trigger_jenkins madeCall
    by_cases h : now - st.last_trigger_time < MIN_INTERVAL
    · simp [if_pos h, h]
    · simp [if_neg h, h]
  · simp [flatten_commands]

theorem query_foldl_lookup (device_states : List (String × Bool)) (ids : List String)
    (acc : List (String × (Bool × Bool))) (did : String) :
    dictGet
      (ids.foldl
        (fun a d => dictInsert a d (true, (dictGet device_states d).getD false)) acc)
      did =
      if did ∈ ids then some (true, (dictGet device_states did).getD false)
      else dictGet acc did := by
  induction ids generalizing acc with
  | nil => simp
  | cons h t ih =>
    simp only [List.foldl_cons, ih, dictGet_dictInsert]
    by_cases hm : did ∈ t
    · simp [hm]
    · by_cases he : h = did
      · subst he
        simp [hm]
      · have he2 : did ≠ h := fun hh => he hh.symm
        simp [hm, he, he2, List.mem_cons]

/-- Claim C7: for every QUERY request and requested device id, the
response maps that id to online=true and the current DeviceState for
it, defaulting to false when no entry exists (in particular for ids
never targeted by EXECUTE); the device table is not mutated. -/
theorem C7_query_reports_state
    (device_states : List (String × Bool)) (ids : List String) (did : String)
    (hmem : did ∈ ids) :
    (query_handler device_states ids).2 = device_states ∧
    dictGet (query_handler device_states ids).1 did =
      some (true, (dictGet device_states did).getD false) ∧
    (dictGet device_states did = none →
      dictGet (query_handler device_states ids).1 did = some (true, false)) := by
  refine ⟨rfl, ?_, ?_⟩
  · simp [query_handler, query_foldl_lookup, hmem]
  · intro hnone
    simp [query_handler, query_foldl_lookup, hmem, hnone]

theorem C7_query_reports_state_witness :
    (query_handler initial_device_states ["jenkins_job", "ghost"]).2 =
      initial_device_states ∧
    dictGet (query_handler initial_device_states ["jenkins_job", "ghost"]).1 "ghost" =
      some (true, (dictGet initial_device_states "ghost").getD false) ∧
    (dictGet initial_device_states "ghost" = none →
      dictGet (query_handler initial_device_states ["jenkins_job", "ghost"]).1 "ghost" =
        some (true, false)) :=
  C7_query_reports_state initial_device_states ["jenkins_job", "ghost"] "ghost"
    (by decide)

/-- Claim C8 counterexample: in the event trace of a non-suppressed
`trigger_jenkins` run, the lock release does NOT precede the outbound
external call — `requests.post` on line 154 sits inside the
`with execution_lock:` block opened on line 140, so the release (on
return) comes after the call. -/
theorem C8_counterexample :
    ¬ (trigger_jenkins_events false).indexOf TriggerEvent.lockRelease <
        (trigger_jenkins_events false).indexOf TriggerEvent.externalCall := by
  decide

/-- Claim C8 (amended): when the cooldown check passes,
`last_trigger_time` is updated before the outbound external call is
performed, but the mutual-exclusion lock is NOT released first: the
external call happens between the lock acquisition and the lock
release, i.e. the lock IS held across the network call (and a
suppressed run performs no external call at all). -/
theorem C8_amended_lock_held_across_call :
    (trigger_jenkins_events false).indexOf TriggerEvent.updateLastTime <
      (trigger_jenkins_events false).indexOf TriggerEvent.externalCall ∧
    (trigger_jenkins_events false).indexOf TriggerEvent.lockAcquire <
      (trigger_jenkins_events false).indexOf TriggerEvent.externalCall ∧
    (trigger_jenkins_events false).indexOf TriggerEvent.externalCall <
      (trigger_jenkins_events false).indexOf TriggerEvent.lockRelease ∧
    TriggerEvent.externalCall ∉ trigger_jenkins_events true := by
  refine ⟨by decide, by decide, by decide, by decide⟩

/-- Claim C10: the `/authorize` POST handler validates nothing — it
takes no Credential Registry input at all and checks no credentials —
and for every request, any unknown client_id included, it stores the
freshly generated code keyed to the supplied (client_id, redirect_uri)
and answers a redirect to redirect_uri with `code` and `state`
appended (`&` separator when the URI already has a query part, `?`
otherwise). -/
theorem C10_authorize_no_validation
    (code : String) (client_id : Option String) (uri : String)
    (state : Option String)
    (auth_codes : List (String × (Option String × Option String))) :
    authorize_post code client_id (some uri) state auth_codes =
      Except.ok
        (uri ++ (if uri.contains '?' then "&" else "?") ++
            "code=" ++ code ++ "&state=" ++ state.getD "",
         dictInsert auth_codes code (client_id, some uri)) ∧
    dictGet (dictInsert auth_codes code (client_id, some uri)) code =
      some (client_id, some uri) := by
  constructor
  · rfl
  · simp [dictGet_dictInsert]
